import Mathlib

/-!
Shallow embedding of the reconciliation driver of `magnum-cluster-api`
(`magnum_cluster_api/driver.py`).  Statuses are plain strings, infrastructure
resources are records of the fields the driver reads, and side effects
(persisting records, destroying node groups, Helm upgrades, credential and
secret deletions) are collected in an explicit event list in the order the
driver issues them.
-/

namespace MagnumClusterApi

mutual
/-- Helm values, as an arbitrarily nested mapping; the driver only ever
compares them for equality (`cluster_values != generated_values`). -/
inductive HelmValue where
  | str : String → HelmValue
  | num : Int → HelmValue
  | boolVal : Bool → HelmValue
  | obj : HelmFields → HelmValue

/-- The key-value entries of a nested mapping. -/
inductive HelmFields where
  | nil : HelmFields
  | cons : String → HelmValue → HelmFields → HelmFields
end

deriving instance DecidableEq for HelmValue
deriving instance DecidableEq for HelmFields
deriving instance Repr for HelmValue
deriving instance Repr for HelmFields

/-- The empty mapping `{}` used when the Helm release is not found. -/
def HelmValue.empty : HelmValue := HelmValue.obj HelmFields.nil

/-- A Magnum node group: the fields of the record that
`update_nodegroup_status` reads or writes. -/
structure NodeGroup where
  name : String
  role : String
  status : String
  status_reason : Option String
deriving DecidableEq, Repr

/-- Status sub-fields of the KubeadmControlPlane resource read by the driver.
Absent JSON fields are `none`; `observedGeneration` defaults to 1 and
`ready` defaults to `False` via `.get(..., default)` in the source. -/
structure KubeadmControlPlane where
  observedGeneration : Option Nat
  ready : Bool
  failureMessage : Option String
  updatedReplicas : Option Nat
  replicas : Option Nat
deriving DecidableEq, Repr

/-- Status sub-fields of a MachineDeployment resource.  The driver reads only
`phase`; `failureMessage` models the failure message carried by the
infrastructure resource, which the driver never reads. -/
structure MachineDeployment where
  phase : String
  failureMessage : Option String
deriving DecidableEq, Repr

/-- The Cluster API cluster object: the fields the driver reads.
`stillExists` models the `capi_cluster.exists()` re-check performed in the
`DELETE_IN_PROGRESS` branch. -/
structure CapiCluster where
  api_address : Option String
  kubernetes_version : Option String
  controlPlaneReady : Bool
  infrastructureReady : Bool
  readyCondition : Bool
  cloud_controller_manager_values : HelmValue
  cinder_csi_values : HelmValue
  stillExists : Bool
deriving DecidableEq, Repr

/-- The external world a reconciliation pass observes: the Cluster API
cluster (`none` when `get_or_none` finds nothing), the control-plane
resource, the machine deployments keyed by node-group name, the deployed
Helm values of the two managed releases (`none` = release not found),
whether fetching either release raises `ClusterNotReady`, and whether the
application credential still exists. -/
structure Infra where
  capiCluster : Option CapiCluster
  kcp : Option KubeadmControlPlane
  machineDeployments : List (String × MachineDeployment)
  ccmDeployed : Option HelmValue
  csiDeployed : Option HelmValue
  ccmNotReady : Bool
  csiNotReady : Bool
  credentialFound : Bool
deriving DecidableEq, Repr

/-- Side effects issued by a pass, in order. -/
inductive Effect where
  | saveNodeGroup : NodeGroup → Effect
  | setAutoscalerMetadata : String → Effect
  | saveCluster : Effect
  | destroyNodeGroup : String → Effect
  | helmUpgrade : String → HelmValue → Effect
  | deleteAppCredential : Effect
  | deleteSecret : String → Effect
deriving DecidableEq, Repr

/-- Effects a node-group resolution may issue (its own save and the
autoscaler metadata sync), as opposed to cluster-level effects. -/
def Effect.isNodeGroupLocal : Effect → Bool
  | .saveNodeGroup _ => true
  | .setAutoscalerMetadata _ => true
  | _ => false

def Effect.isDestroy : Effect → Bool
  | .destroyNodeGroup _ => true
  | _ => false

/-- Python `s.endswith(p)`: `p` is a suffix of `s`. -/
def strEndsWith (s p : String) : Bool := p.data.isSuffixOf s.data

/-- `nodegroup.status.split("_")[0]`: the prefix of the status before the
first underscore (the whole status when it has no underscore). -/
def actionOf (status : String) : String :=
  ⟨status.data.takeWhile (fun c => c != '_')⟩

/-- Look up the machine deployment for a node group by name
(`get_machine_deployment`); `none` models the resource not existing. -/
def Infra.mdFor (infra : Infra) (name : String) : Option MachineDeployment :=
  (infra.machineDeployments.find? (fun p => p.1 = name)).map Prod.snd

/-- The control-plane (`role == "master"`) branch of
`update_nodegroup_status` when the KubeadmControlPlane resource exists
(driver.py:326-340). -/
def resolve_control_plane (ng : NodeGroup) (kcp : KubeadmControlPlane) :
    NodeGroup × List Effect :=
  let action :=
    if kcp.observedGeneration.getD 1 > 1 then "UPDATE" else actionOf ng.status
  let ng1 :=
    if kcp.updatedReplicas ≠ kcp.replicas then
      { ng with status := action ++ "_IN_PROGRESS" }
    else if kcp.updatedReplicas = kcp.replicas ∧ kcp.ready then
      { ng with status := action ++ "_COMPLETE" }
    else ng
  let ng2 := { ng1 with status_reason := kcp.failureMessage }
  (ng2, [Effect.saveNodeGroup ng2])

/-- The worker branch of `update_nodegroup_status` when the machine
deployment does not exist (driver.py:343-348). -/
def resolve_worker_missing_md (ng : NodeGroup) : NodeGroup × List Effect :=
  if actionOf ng.status = "DELETE" then
    let ng1 := { ng with status := actionOf ng.status ++ "_COMPLETE" }
    (ng1, [Effect.saveNodeGroup ng1])
  else
    (ng, [])

/-- The worker branch of `update_nodegroup_status` when the machine
deployment exists (driver.py:350-365). -/
def resolve_worker (ng : NodeGroup) (md : MachineDeployment) :
    NodeGroup × List Effect :=
  let ng1 :=
    if md.phase = "ScalingUp" ∨ md.phase = "ScalingDown" then
      { ng with status := actionOf ng.status ++ "_IN_PROGRESS" }
    else if md.phase = "Running" then
      { ng with status := actionOf ng.status ++ "_COMPLETE" }
    else if md.phase = "Failed" ∨ md.phase = "Unknown" then
      { ng with status := actionOf ng.status ++ "_FAILED" }
    else ng
  (ng1, [Effect.setAutoscalerMetadata ng.name, Effect.saveNodeGroup ng1])

/-- Embedding of `BaseDriver.update_nodegroup_status` (driver.py:318-367):
returns the node group as mutated by the pass together with the side
effects issued, in order. -/
def update_nodegroup_status (infra : Infra) (ng : NodeGroup) :
    NodeGroup × List Effect :=
  if ng.role = "master" then
    match infra.kcp with
    | none => (ng, [])
    | some kcp => resolve_control_plane ng kcp
  else
    match infra.mdFor ng.name with
    | none => resolve_worker_missing_md ng
    | some md => resolve_worker ng md

/-- Embedding of `BaseDriver._reconcile_helm_chart` (driver.py:95-132):
given the currently-deployed values of the release (`none` when fetching
them raises `HelmReleaseNotFound`) and the generated desired values, return
the values passed to each upgrade call issued.  Absence of the release is
treated as the empty configuration `\x7b\x7d`. -/
def reconcile_helm_chart (deployed : Option HelmValue)
    (generated_values : HelmValue) : List HelmValue :=
  let cluster_values := deployed.getD HelmValue.empty
  if cluster_values ≠ generated_values then [generated_values] else []

/-- Embedding of `BaseDriver._reconcile_api_address` (driver.py:68-79). -/
def reconcile_api_address (cluster_api_address : Option String)
    (capi : CapiCluster) : Option String × List Effect :=
  if cluster_api_address ≠ capi.api_address then
    (capi.api_address, [Effect.saveCluster])
  else
    (cluster_api_address, [])

/-- Embedding of `BaseDriver._reconcile_coe_version` (driver.py:81-93). -/
def reconcile_coe_version (cluster_coe_version : Option String)
    (capi : CapiCluster) : Option String × List Effect :=
  if cluster_coe_version ≠ capi.kubernetes_version then
    (capi.kubernetes_version, [Effect.saveCluster])
  else
    (cluster_coe_version, [])

/-- The Magnum cluster record: the fields `update_cluster_status` reads or
writes. -/
structure MagnumCluster where
  uuid : String
  status : String
  api_address : Option String
  coe_version : Option String
  nodegroups : List NodeGroup
deriving DecidableEq, Repr

/-- The completeness scan over resolved node groups (driver.py:204-208):
walks the list in order; aborts at the first node group whose status does
not end in `_COMPLETE`; destroys each `DELETE_COMPLETE` node group it
passes.  Returns the surviving node groups, the destroy effects issued, and
whether the scan ran to completion. -/
def scan_node_groups : List NodeGroup → List NodeGroup × List Effect × Bool
  | [] => ([], [], true)
  | ng :: rest =>
    if strEndsWith ng.status "_COMPLETE" then
      let r := scan_node_groups rest
      if ng.status = "DELETE_COMPLETE" then
        (r.1, Effect.destroyNodeGroup ng.name :: r.2.1, r.2.2)
      else
        (ng :: r.1, r.2.1, r.2.2)
    else
      (ng :: rest, [], false)

/-- The three conditions checked in driver.py:200-202, as read off the
Cluster API cluster object fetched by the pass. -/
def infra_conditions_ok (infra : Infra) : Bool :=
  match infra.capiCluster with
  | none => false
  | some capi =>
    capi.controlPlaneReady && capi.infrastructureReady && capi.readyCondition

/-- The `CREATE_IN_PROGRESS` / `UPDATE_IN_PROGRESS` branch of
`update_cluster_status` (driver.py:179-215), applied after node-group
resolution.  Returns the cluster record as mutated and the effects issued
by this branch. -/
def in_progress_pass (infra : Infra) (cluster : MagnumCluster) :
    MagnumCluster × List Effect :=
  match infra.capiCluster with
  | none => (cluster, [])
  | some capi =>
    let ra := reconcile_api_address cluster.api_address capi
    let rc := reconcile_coe_version cluster.coe_version capi
    let e1 := ra.2
    let e2 := rc.2
    let cluster := { cluster with api_address := ra.1, coe_version := rc.1 }
    if infra.ccmNotReady then (cluster, e1 ++ e2)
    else
      let e3 := (reconcile_helm_chart infra.ccmDeployed
          capi.cloud_controller_manager_values).map
        (Effect.helmUpgrade "cloud-controller-manager")
      if infra.csiNotReady then (cluster, e1 ++ e2 ++ e3)
      else
        let e4 := (reconcile_helm_chart infra.csiDeployed
            capi.cinder_csi_values).map
          (Effect.helmUpgrade "openstack-cinder-csi")
        if capi.controlPlaneReady && capi.infrastructureReady &&
            capi.readyCondition then
          let scanned := scan_node_groups cluster.nodegroups
          if scanned.2.2 then
            let cluster :=
              { cluster with
                nodegroups := scanned.1
                status :=
                  if cluster.status = "UPDATE_IN_PROGRESS" then
                    "UPDATE_COMPLETE"
                  else cluster.status }
            (cluster, e1 ++ e2 ++ e3 ++ e4 ++ scanned.2.1 ++
              [Effect.saveCluster])
          else
            ({ cluster with nodegroups := scanned.1 },
              e1 ++ e2 ++ e3 ++ e4 ++ scanned.2.1)
        else
          (cluster, e1 ++ e2 ++ e3 ++ e4)

/-- The five secrets deleted in the `DELETE_IN_PROGRESS` branch
(driver.py:231-239): the cloud-config secret and the four
certificate-authority secrets. -/
def deletedSecretNames : List String :=
  ["cloud-config", "api-ca", "etcd-ca", "front-proxy-ca",
    "service-account-ca"]

/-- The `DELETE_IN_PROGRESS` branch of `update_cluster_status`
(driver.py:217-242).  `NotFound` on the application-credential delete is
swallowed: when the credential is absent no delete is issued and the pass
continues. -/
def delete_pass (infra : Infra) (cluster : MagnumCluster) :
    MagnumCluster × List Effect :=
  let capiClusterExists :=
    match infra.capiCluster with
    | none => false
    | some capi => capi.stillExists
  if capiClusterExists then (cluster, [])
  else
    let credEffects :=
      if infra.credentialFound then [Effect.deleteAppCredential] else []
    let secretEffects := deletedSecretNames.map Effect.deleteSecret
    ({ cluster with status := "DELETE_COMPLETE" },
      credEffects ++ secretEffects ++ [Effect.saveCluster])

/-- The node groups of a cluster as resolved by `update_nodegroup_status`
(`node_groups = [self.update_nodegroup_status(...) for ...]`). -/
def resolved_node_groups (infra : Infra) (cluster : MagnumCluster) :
    List NodeGroup :=
  cluster.nodegroups.map (fun ng => (update_nodegroup_status infra ng).1)

/-- The side effects issued while resolving all node groups, in order. -/
def node_group_effects (infra : Infra) (cluster : MagnumCluster) :
    List Effect :=
  (cluster.nodegroups.map (fun ng => (update_nodegroup_status infra ng).2)).flatten

/-- The cluster record after node-group resolution (the node groups are
mutated in place by the resolution loop). -/
def post_resolution (infra : Infra) (cluster : MagnumCluster) :
    MagnumCluster :=
  { cluster with nodegroups := resolved_node_groups infra cluster }

/-- The `if cluster.status in ("CREATE_IN_PROGRESS", "UPDATE_IN_PROGRESS")`
guard of driver.py:179-182. -/
def in_progress_branch (infra : Infra) (cluster : MagnumCluster) :
    MagnumCluster × List Effect :=
  if cluster.status = "CREATE_IN_PROGRESS" ∨
      cluster.status = "UPDATE_IN_PROGRESS" then
    in_progress_pass infra cluster
  else
    (cluster, [])

/-- The `if cluster.status == "DELETE_IN_PROGRESS"` guard of
driver.py:217. -/
def delete_branch (infra : Infra) (cluster : MagnumCluster) :
    MagnumCluster × List Effect :=
  if cluster.status = "DELETE_IN_PROGRESS" then
    delete_pass infra cluster
  else
    (cluster, [])

/-- Embedding of `BaseDriver.update_cluster_status` (driver.py:168-242):
resolves every node group, then runs the in-progress branch and the delete
branch.  Returns the cluster record as mutated by the pass and every side
effect issued, in order. -/
def update_cluster_status (infra : Infra) (cluster : MagnumCluster) :
    MagnumCluster × List Effect :=
  ((delete_branch infra
      (in_progress_branch infra (post_resolution infra cluster)).1).1,
    node_group_effects infra cluster ++
      (in_progress_branch infra (post_resolution infra cluster)).2 ++
      (delete_branch infra
        (in_progress_branch infra (post_resolution infra cluster)).1).2)

/-- The resources deleted by `delete_cluster`, in program order. -/
inductive DeleteOp where
  | loadBalancers
  | clusterResourceSet
  | clusterResourcesConfigMap
  | capiClusterObject
  | autoscalerHelmRelease
deriving DecidableEq, Repr

/-- Embedding of `BaseDriver.delete_cluster` (driver.py:303-313): the delete
operations it issues, in order. -/
def delete_cluster : List DeleteOp :=
  [DeleteOp.loadBalancers, DeleteOp.clusterResourceSet,
    DeleteOp.clusterResourcesConfigMap, DeleteOp.capiClusterObject,
    DeleteOp.autoscalerHelmRelease]

/-! ### Witness fixtures -/

/-- Desired Helm values used by the C4 witness. -/
def wVals : HelmValue :=
  HelmValue.obj
    (HelmFields.cons "cloudConfig" (HelmValue.str "openstack")
      HelmFields.nil)

/-- Worker node group used by the C2 counterexample. -/
def c2Ng : NodeGroup :=
  { name := "default-worker", role := "worker",
    status := "CREATE_IN_PROGRESS", status_reason := none }

/-- Machine deployment in phase `Failed` carrying a failure message. -/
def c2Md : MachineDeployment :=
  { phase := "Failed", failureMessage := some "boom" }

/-- Infrastructure state for the C2 counterexample. -/
def c2Infra : Infra :=
  { capiCluster := none, kcp := none,
    machineDeployments := [("default-worker", c2Md)],
    ccmDeployed := none, csiDeployed := none,
    ccmNotReady := false, csiNotReady := false, credentialFound := true }

/-- Worker node group used by the C2 witness. -/
def w2Ng : NodeGroup :=
  { name := "pool-a", role := "worker",
    status := "UPDATE_IN_PROGRESS", status_reason := some "previous" }

/-- Machine deployment in phase `Unknown` used by the C2 witness. -/
def w2Md : MachineDeployment :=
  { phase := "Unknown", failureMessage := none }

/-- Infrastructure state for the C2 witness. -/
def w2Infra : Infra :=
  { capiCluster := none, kcp := none,
    machineDeployments := [("pool-a", w2Md)],
    ccmDeployed := none, csiDeployed := none,
    ccmNotReady := false, csiNotReady := false, credentialFound := true }

/-- Control-plane node group used by the C5 counterexample. -/
def c5Ng : NodeGroup :=
  { name := "default-master", role := "master",
    status := "CREATE_IN_PROGRESS", status_reason := none }

/-- Control-plane resource with a bumped generation, equal replica counts
and `ready = false`. -/
def c5Kcp : KubeadmControlPlane :=
  { observedGeneration := some 2, ready := false, failureMessage := none,
    updatedReplicas := some 3, replicas := some 3 }

/-- Infrastructure state for the C5 counterexample. -/
def c5Infra : Infra :=
  { capiCluster := none, kcp := some c5Kcp, machineDeployments := [],
    ccmDeployed := none, csiDeployed := none,
    ccmNotReady := false, csiNotReady := false, credentialFound := true }

/-- Control-plane node group used by the C5 witness. -/
def w5Ng : NodeGroup :=
  { name := "default-master", role := "master",
    status := "CREATE_IN_PROGRESS", status_reason := none }

/-- Ready control-plane resource with bumped generation used by the C5
witness. -/
def w5Kcp : KubeadmControlPlane :=
  { observedGeneration := some 3, ready := true, failureMessage := none,
    updatedReplicas := some 3, replicas := some 3 }

/-- Infrastructure state for the C5 witness. -/
def w5Infra : Infra :=
  { capiCluster := none, kcp := some w5Kcp, machineDeployments := [],
    ccmDeployed := none, csiDeployed := none,
    ccmNotReady := false, csiNotReady := false, credentialFound := true }

/-- Control-plane resource reporting no replica fields, used by the C8
witness. -/
def w8Kcp : KubeadmControlPlane :=
  { observedGeneration := none, ready := true, failureMessage := none,
    updatedReplicas := none, replicas := none }

/-- Infrastructure state for the C8 witness. -/
def w8Infra : Infra :=
  { capiCluster := none, kcp := some w8Kcp, machineDeployments := [],
    ccmDeployed := none, csiDeployed := none,
    ccmNotReady := false, csiNotReady := false, credentialFound := true }

/-- Worker node group already in UPDATE_COMPLETE, used by cluster-level
witnesses. -/
def wNgDone : NodeGroup :=
  { name := "pool-a", role := "worker", status := "UPDATE_COMPLETE",
    status_reason := none }

/-- Cluster API cluster object with all three conditions true. -/
def wCapi : CapiCluster :=
  { api_address := some "https://10.0.0.1:6443",
    kubernetes_version := some "v1.25.3",
    controlPlaneReady := true, infrastructureReady := true,
    readyCondition := true,
    cloud_controller_manager_values := HelmValue.empty,
    cinder_csi_values := HelmValue.empty, stillExists := true }

/-- Cluster API cluster object whose Ready condition is false. -/
def wCapiNotReady : CapiCluster :=
  { wCapi with readyCondition := false }

/-- Infrastructure state with all conditions true and both add-on releases
already deployed at their desired values. -/
def wInfraReady : Infra :=
  { capiCluster := some wCapi, kcp := none, machineDeployments := [],
    ccmDeployed := some HelmValue.empty,
    csiDeployed := some HelmValue.empty,
    ccmNotReady := false, csiNotReady := false, credentialFound := true }

/-- Infrastructure state whose Ready condition is false. -/
def wInfraNotReady : Infra :=
  { wInfraReady with capiCluster := some wCapiNotReady }

/-- Magnum cluster in UPDATE_IN_PROGRESS whose single node group is already
complete. -/
def wClUpdate : MagnumCluster :=
  { uuid := "u1", status := "UPDATE_IN_PROGRESS",
    api_address := some "https://10.0.0.1:6443",
    coe_version := some "v1.25.3", nodegroups := [wNgDone] }

/-- Magnum cluster in CREATE_IN_PROGRESS whose single node group is already
complete, used by the C7 witness. -/
def wClCreate : MagnumCluster :=
  { uuid := "u2", status := "CREATE_IN_PROGRESS",
    api_address := some "https://10.0.0.1:6443",
    coe_version := some "v1.25.3", nodegroups := [wNgDone] }

/-- Magnum cluster in CREATE_FAILED, used by the C9 witness. -/
def wClFailed : MagnumCluster :=
  { uuid := "u3", status := "CREATE_FAILED",
    api_address := some "https://10.0.0.1:6443",
    coe_version := some "v1.25.3", nodegroups := [wNgDone] }

/-- Node group already destroyed upstream, in DELETE_COMPLETE after
resolution (its machine deployment is gone), used by the C10 witness. -/
def w10NgDel : NodeGroup :=
  { name := "pool-del", role := "worker",
    status := "DELETE_IN_PROGRESS", status_reason := none }

/-- Node group still scaling, not `_COMPLETE` after resolution. -/
def w10NgBusy : NodeGroup :=
  { name := "pool-busy", role := "worker",
    status := "UPDATE_IN_PROGRESS", status_reason := none }

/-- Infrastructure state for the C10 witness: no machine deployment for
`pool-del`, a scaling one for `pool-busy`, conditions all true. -/
def w10Infra : Infra :=
  { capiCluster := some wCapi, kcp := none,
    machineDeployments :=
      [("pool-busy", { phase := "ScalingUp", failureMessage := none })],
    ccmDeployed := some HelmValue.empty,
    csiDeployed := some HelmValue.empty,
    ccmNotReady := false, csiNotReady := false, credentialFound := true }

/-- UPDATE_IN_PROGRESS cluster whose first node group resolves to
DELETE_COMPLETE and whose second stays in progress. -/
def w10Cl : MagnumCluster :=
  { uuid := "u4", status := "UPDATE_IN_PROGRESS",
    api_address := some "https://10.0.0.1:6443",
    coe_version := some "v1.25.3",
    nodegroups := [w10NgDel, w10NgBusy] }

/-- DELETE_IN_PROGRESS cluster used by the C6 witness. -/
def w6Cl : MagnumCluster :=
  { uuid := "u5", status := "DELETE_IN_PROGRESS",
    api_address := none, coe_version := none, nodegroups := [] }

/-- Infrastructure state for the C6 witness: infra cluster gone, credential
already absent. -/
def w6Infra : Infra :=
  { capiCluster := none, kcp := none, machineDeployments := [],
    ccmDeployed := none, csiDeployed := none,
    ccmNotReady := false, csiNotReady := false, credentialFound := false }

/-! ### Helper lemmas -/

theorem hendsDelete : strEndsWith "DELETE_COMPLETE" "_COMPLETE" = true := by
  decide

theorem scan_node_groups_ok (l : List NodeGroup) :
    (scan_node_groups l).2.2 =
      l.all (fun ng => strEndsWith ng.status "_COMPLETE") := by
  induction l with
  | nil => rfl
  | cons ng rest ih =>
    unfold scan_node_groups
    by_cases h : strEndsWith ng.status "_COMPLETE" = true
    · rw [if_pos h]
      by_cases h2 : ng.status = "DELETE_COMPLETE"
      · rw [if_pos h2]; simp [h, ih]
      · rw [if_neg h2]; simp [h, ih]
    · rw [if_neg h]
      have h' : strEndsWith ng.status "_COMPLETE" = false := by
        simpa using h
      simp [h']

theorem scan_node_groups_effects (l : List NodeGroup) :
    (scan_node_groups l).2.1 =
      ((l.takeWhile (fun ng => strEndsWith ng.status "_COMPLETE")).filter
        (fun ng => ng.status == "DELETE_COMPLETE")).map
        (fun ng => Effect.destroyNodeGroup ng.name) := by
  induction l with
  | nil => rfl
  | cons ng rest ih =>
    unfold scan_node_groups
    by_cases h : strEndsWith ng.status "_COMPLETE" = true
    · rw [if_pos h]
      by_cases h2 : ng.status = "DELETE_COMPLETE"
      · rw [if_pos h2]
        simp [List.takeWhile_cons, List.filter_cons, h, h2, hendsDelete, ih]
      · rw [if_neg h2]
        simp [List.takeWhile_cons, List.filter_cons, h, h2, ih]
    · rw [if_neg h]
      have h' : strEndsWith ng.status "_COMPLETE" = false := by
        simpa using h
      simp [List.takeWhile_cons, h']

theorem update_nodegroup_status_snd (infra : Infra) (ng : NodeGroup) :
    (update_nodegroup_status infra ng).2 = [] ∨
    (∃ n, (update_nodegroup_status infra ng).2 =
      [Effect.saveNodeGroup n]) ∨
    (∃ s n, (update_nodegroup_status infra ng).2 =
      [Effect.setAutoscalerMetadata s, Effect.saveNodeGroup n]) := by
  unfold update_nodegroup_status
  by_cases hrole : ng.role = "master"
  · rw [if_pos hrole]
    cases infra.kcp
    · exact Or.inl rfl
    · exact Or.inr (Or.inl ⟨_, rfl⟩)
  · rw [if_neg hrole]
    cases infra.mdFor ng.name
    · unfold resolve_worker_missing_md
      by_cases hd : actionOf ng.status = "DELETE"
      · rw [if_pos hd]; exact Or.inr (Or.inl ⟨_, rfl⟩)
      · rw [if_neg hd]; exact Or.inl rfl
    · exact Or.inr (Or.inr ⟨_, _, rfl⟩)

theorem update_nodegroup_status_effects_local (infra : Infra)
    (ng : NodeGroup) :
    ∀ e ∈ (update_nodegroup_status infra ng).2,
      e.isNodeGroupLocal = true := by
  intro e he
  rcases update_nodegroup_status_snd infra ng with h | ⟨n, h⟩ | ⟨s, n, h⟩ <;>
    rw [h] at he
  · cases he
  · rw [List.mem_singleton] at he; subst he; rfl
  · rcases List.mem_cons.mp he with rfl | he2
    · rfl
    · rw [List.mem_singleton] at he2; subst he2; rfl

theorem node_group_effects_local (infra : Infra) (c : MagnumCluster) :
    ∀ e ∈ node_group_effects infra c, e.isNodeGroupLocal = true := by
  intro e he
  simp only [node_group_effects, List.mem_flatten, List.mem_map] at he
  obtain ⟨l, ⟨ng, _, rfl⟩, hel⟩ := he
  exact update_nodegroup_status_effects_local infra ng e hel

theorem reconcile_api_address_no_destroy (a : Option String)
    (capi : CapiCluster) :
    (reconcile_api_address a capi).2.filter Effect.isDestroy = [] := by
  unfold reconcile_api_address
  split <;> rfl

theorem reconcile_coe_version_no_destroy (a : Option String)
    (capi : CapiCluster) :
    (reconcile_coe_version a capi).2.filter Effect.isDestroy = [] := by
  unfold reconcile_coe_version
  split <;> rfl

theorem helm_effects_no_destroy (d : Option HelmValue) (v : HelmValue)
    (r : String) :
    ((reconcile_helm_chart d v).map
      (Effect.helmUpgrade r)).filter Effect.isDestroy = [] := by
  unfold reconcile_helm_chart
  by_cases h : d.getD HelmValue.empty ≠ v
  · rw [if_pos h]; rfl
  · rw [if_neg h]; rfl

theorem scan_effects_all_destroys (l : List NodeGroup) :
    (scan_node_groups l).2.1.filter Effect.isDestroy =
      (scan_node_groups l).2.1 := by
  rw [scan_node_groups_effects]
  apply List.filter_eq_self.mpr
  intro e he
  simp only [List.mem_map] at he
  obtain ⟨ng, _, rfl⟩ := he
  rfl

theorem node_group_effects_no_destroy (infra : Infra) (c : MagnumCluster) :
    (node_group_effects infra c).filter Effect.isDestroy = [] := by
  rw [List.filter_eq_nil_iff]
  intro e he
  have h := node_group_effects_local infra c e he
  cases e <;> simp_all [Effect.isNodeGroupLocal, Effect.isDestroy]

theorem in_progress_pass_status (infra : Infra) (c : MagnumCluster) :
    (in_progress_pass infra c).1.status =
      if infra_conditions_ok infra = true ∧ infra.ccmNotReady = false ∧
          infra.csiNotReady = false ∧
          c.nodegroups.all
            (fun ng => strEndsWith ng.status "_COMPLETE") = true ∧
          c.status = "UPDATE_IN_PROGRESS"
        then "UPDATE_COMPLETE" else c.status := by
  unfold in_progress_pass
  cases hc : infra.capiCluster with
  | none => simp [infra_conditions_ok, hc]
  | some capi =>
    simp only [infra_conditions_ok, hc]
    by_cases h1 : infra.ccmNotReady
    · simp [h1]
    · by_cases h2 : infra.csiNotReady
      · simp [h1, h2]
      · by_cases h3 : (capi.controlPlaneReady && capi.infrastructureReady &&
            capi.readyCondition) = true
        · by_cases h4 : c.nodegroups.all
              (fun ng => strEndsWith ng.status "_COMPLETE") = true
          · by_cases h5 : c.status = "UPDATE_IN_PROGRESS" <;>
              simp [h1, h2, h3, h4, h5, scan_node_groups_ok]
          · simp [h1, h2, h3, h4, scan_node_groups_ok]
        · simp [h1, h2, h3]

theorem post_resolution_status (infra : Infra) (c : MagnumCluster) :
    (post_resolution infra c).status = c.status := rfl

theorem post_resolution_nodegroups (infra : Infra) (c : MagnumCluster) :
    (post_resolution infra c).nodegroups = resolved_node_groups infra c :=
  rfl

theorem delete_branch_of_other (infra : Infra) (c : MagnumCluster)
    (h : c.status ≠ "DELETE_IN_PROGRESS") :
    delete_branch infra c = (c, []) := by
  unfold delete_branch
  rw [if_neg h]

theorem in_progress_branch_of_other (infra : Infra) (c : MagnumCluster)
    (h : ¬ (c.status = "CREATE_IN_PROGRESS" ∨
      c.status = "UPDATE_IN_PROGRESS")) :
    in_progress_branch infra c = (c, []) := by
  unfold in_progress_branch
  rw [if_neg h]

theorem in_progress_branch_of_in_progress (infra : Infra)
    (c : MagnumCluster)
    (h : c.status = "CREATE_IN_PROGRESS" ∨
      c.status = "UPDATE_IN_PROGRESS") :
    in_progress_branch infra c = in_progress_pass infra c := by
  unfold in_progress_branch
  rw [if_pos h]

theorem in_progress_pass_destroys (infra : Infra) (c : MagnumCluster)
    (hcond : infra_conditions_ok infra = true)
    (hccm : infra.ccmNotReady = false) (hcsi : infra.csiNotReady = false) :
    (in_progress_pass infra c).2.filter Effect.isDestroy =
      (scan_node_groups c.nodegroups).2.1 := by
  unfold in_progress_pass
  unfold infra_conditions_ok at hcond
  cases hc : infra.capiCluster with
  | none => rw [hc] at hcond; cases hcond
  | some capi =>
    rw [hc] at hcond
    obtain ⟨⟨hcp, hir⟩, hrc⟩ :
        (capi.controlPlaneReady = true ∧ capi.infrastructureReady = true) ∧
          capi.readyCondition = true := by simpa using hcond
    by_cases h4 : (scan_node_groups c.nodegroups).2.2 = true <;>
      simp [hccm, hcsi, hcp, hir, hrc, h4, List.filter_append,
        Effect.isDestroy,
        reconcile_api_address_no_destroy, reconcile_coe_version_no_destroy,
        helm_effects_no_destroy, scan_effects_all_destroys]

theorem in_progress_pass_saves (infra : Infra) (c : MagnumCluster)
    (hcond : infra_conditions_ok infra = true)
    (hccm : infra.ccmNotReady = false) (hcsi : infra.csiNotReady = false)
    (hall : c.nodegroups.all
      (fun ng => strEndsWith ng.status "_COMPLETE") = true) :
    Effect.saveCluster ∈ (in_progress_pass infra c).2 := by
  unfold in_progress_pass
  unfold infra_conditions_ok at hcond
  cases hc : infra.capiCluster with
  | none => rw [hc] at hcond; cases hcond
  | some capi =>
    rw [hc] at hcond
    obtain ⟨⟨hcp, hir⟩, hrc⟩ :
        (capi.controlPlaneReady = true ∧ capi.infrastructureReady = true) ∧
          capi.readyCondition = true := by simpa using hcond
    simp [hccm, hcsi, hcp, hir, hrc, scan_node_groups_ok, hall,
      List.mem_append]

theorem update_cluster_status_fst (infra : Infra) (c : MagnumCluster) :
    (update_cluster_status infra c).1 =
      (delete_branch infra
        (in_progress_branch infra (post_resolution infra c)).1).1 := rfl

theorem update_cluster_status_snd (infra : Infra) (c : MagnumCluster) :
    (update_cluster_status infra c).2 =
      node_group_effects infra c ++
        (in_progress_branch infra (post_resolution infra c)).2 ++
        (delete_branch infra
          (in_progress_branch infra (post_resolution infra c)).1).2 := rfl

theorem in_progress_branch_result_status (infra : Infra) (c : MagnumCluster)
    (h : c.status = "CREATE_IN_PROGRESS" ∨
      c.status = "UPDATE_IN_PROGRESS") :
    (in_progress_branch infra (post_resolution infra c)).1.status =
      if infra_conditions_ok infra = true ∧ infra.ccmNotReady = false ∧
          infra.csiNotReady = false ∧
          (resolved_node_groups infra c).all
            (fun ng => strEndsWith ng.status "_COMPLETE") = true ∧
          c.status = "UPDATE_IN_PROGRESS"
        then "UPDATE_COMPLETE" else c.status := by
  have hst := in_progress_pass_status infra (post_resolution infra c)
  rw [post_resolution_status, post_resolution_nodegroups] at hst
  rw [in_progress_branch_of_in_progress infra (post_resolution infra c)
    (by rw [post_resolution_status]; exact h), hst]

theorem in_progress_branch_result_not_delete (infra : Infra)
    (c : MagnumCluster)
    (h : c.status = "CREATE_IN_PROGRESS" ∨
      c.status = "UPDATE_IN_PROGRESS") :
    (in_progress_branch infra
      (post_resolution infra c)).1.status ≠ "DELETE_IN_PROGRESS" := by
  rw [in_progress_branch_result_status infra c h]
  by_cases hC : infra_conditions_ok infra = true ∧
      infra.ccmNotReady = false ∧ infra.csiNotReady = false ∧
      (resolved_node_groups infra c).all
        (fun ng => strEndsWith ng.status "_COMPLETE") = true ∧
      c.status = "UPDATE_IN_PROGRESS"
  · rw [if_pos hC]; decide
  · rw [if_neg hC]
    rcases h with h | h <;> rw [h] <;> decide

theorem in_progress_status_master (infra : Infra) (c : MagnumCluster)
    (h : c.status = "CREATE_IN_PROGRESS" ∨
      c.status = "UPDATE_IN_PROGRESS") :
    (update_cluster_status infra c).1.status =
      if infra_conditions_ok infra = true ∧ infra.ccmNotReady = false ∧
          infra.csiNotReady = false ∧
          (resolved_node_groups infra c).all
            (fun ng => strEndsWith ng.status "_COMPLETE") = true ∧
          c.status = "UPDATE_IN_PROGRESS"
        then "UPDATE_COMPLETE" else c.status := by
  rw [update_cluster_status_fst, delete_branch_of_other _ _
    (in_progress_branch_result_not_delete infra c h)]
  exact in_progress_branch_result_status infra c h

/-! ### Claim theorems -/

/-- C3: `delete_cluster` issues exactly five delete operations, in the
relative order: load balancers created for the cluster, the cluster
resource set, the cluster resources config map, the infrastructure cluster
object, and finally the autoscaler add-on release. -/
theorem delete_cluster_order :
    delete_cluster.length = 5 ∧
    delete_cluster =
      [DeleteOp.loadBalancers, DeleteOp.clusterResourceSet,
        DeleteOp.clusterResourcesConfigMap, DeleteOp.capiClusterObject,
        DeleteOp.autoscalerHelmRelease] :=
  ⟨rfl, rfl⟩

/-- C4: the add-on reconcile operation performs zero upgrade calls when the
currently-deployed values (the empty mapping when the release is absent)
equal the desired values, and exactly one upgrade call carrying the desired
values otherwise; re-running it with identical desired values against an
unchanged deployed state equal to them performs no write. -/
theorem reconcile_helm_chart_write_discipline (deployed : Option HelmValue)
    (desired : HelmValue) :
    (deployed.getD HelmValue.empty = desired →
      reconcile_helm_chart deployed desired = []) ∧
    (deployed.getD HelmValue.empty ≠ desired →
      reconcile_helm_chart deployed desired = [desired]) ∧
    reconcile_helm_chart (some desired) desired = [] := by
  refine ⟨?_, ?_, ?_⟩
  · intro h
    show (if deployed.getD HelmValue.empty ≠ desired
        then [desired] else []) = []
    rw [if_neg (not_not_intro h)]
  · intro h
    show (if deployed.getD HelmValue.empty ≠ desired
        then [desired] else []) = [desired]
    rw [if_pos h]
  · show (if (some desired).getD HelmValue.empty ≠ desired
        then [desired] else []) = []
    simp

/-- C4 witness: at a concrete desired configuration, an absent release
triggers exactly one upgrade, and a deployed release already equal to the
desired values triggers none. -/
theorem reconcile_helm_chart_write_discipline_witness :
    reconcile_helm_chart none wVals = [wVals] ∧
    reconcile_helm_chart (some wVals) wVals = [] :=
  ⟨(reconcile_helm_chart_write_discipline none wVals).2.1 (by decide),
    (reconcile_helm_chart_write_discipline (some wVals) wVals).2.2⟩

/-- C2 counterexample: a worker node group whose machine deployment is in
phase `Failed` with failure message "boom" resolves to `CREATE_FAILED`, but
its `status_reason` stays `none` — the worker branch never copies the
resource's failure message, contradicting the claim. -/
theorem worker_failed_status_reason_cex :
    c2Md.phase = "Failed" ∧ c2Md.failureMessage = some "boom" ∧
    c2Infra.mdFor c2Ng.name = some c2Md ∧
    (update_nodegroup_status c2Infra c2Ng).1.status = "CREATE_FAILED" ∧
    (update_nodegroup_status c2Infra c2Ng).1.status_reason ≠ some "boom" := by
  decide

/-- C2 (amended): for a worker node group whose machine deployment exists
with phase `Failed` or `Unknown`, the status is set to `{action}_FAILED`
for the current action prefix; `status_reason` is left unchanged (the
worker branch never writes it). -/
theorem update_nodegroup_status_worker_failed (infra : Infra)
    (ng : NodeGroup) (md : MachineDeployment)
    (hrole : ng.role ≠ "master")
    (hmd : infra.mdFor ng.name = some md)
    (hphase : md.phase = "Failed" ∨ md.phase = "Unknown") :
    (update_nodegroup_status infra ng).1.status =
      actionOf ng.status ++ "_FAILED" ∧
    (update_nodegroup_status infra ng).1.status_reason =
      ng.status_reason := by
  rcases hphase with h | h <;>
    simp [update_nodegroup_status, hrole, hmd, resolve_worker, h]

/-- C2 witness: a concrete worker node group in `UPDATE_IN_PROGRESS` whose
machine deployment reports `Unknown` resolves to `UPDATE_FAILED` with its
previous status_reason intact. -/
theorem update_nodegroup_status_worker_failed_witness :
    (update_nodegroup_status w2Infra w2Ng).1.status =
      actionOf w2Ng.status ++ "_FAILED" ∧
    (update_nodegroup_status w2Infra w2Ng).1.status_reason =
      w2Ng.status_reason :=
  update_nodegroup_status_worker_failed w2Infra w2Ng w2Md (by decide)
    (by decide) (Or.inr rfl)

/-- C5 counterexample: with `observedGeneration = 2 > 1`, equal replica
counts and `ready = false`, the node group's status stays
`CREATE_IN_PROGRESS` — a CREATE_-prefixed status, refuting "resolves to
UPDATE_IN_PROGRESS or UPDATE_COMPLETE, never a CREATE_-prefixed status". -/
theorem cp_generation_override_cex :
    c5Kcp.observedGeneration.getD 1 > 1 ∧ c5Ng.role = "master" ∧
    c5Infra.kcp = some c5Kcp ∧
    (update_nodegroup_status c5Infra c5Ng).1.status =
      "CREATE_IN_PROGRESS" := by
  decide

/-- C5 (amended): when the control-plane resource has
`observedGeneration > 1`, every status the resolver assigns uses action
`UPDATE` regardless of the recorded prefix — `UPDATE_IN_PROGRESS` when the
replica counts differ, `UPDATE_COMPLETE` when they agree and the resource
is ready; when they agree and the resource is not ready the status field
is left unchanged, so a CREATE_-prefixed status can persist. -/
theorem cp_generation_override (infra : Infra) (ng : NodeGroup)
    (kcp : KubeadmControlPlane)
    (hrole : ng.role = "master") (hkcp : infra.kcp = some kcp)
    (hgen : kcp.observedGeneration.getD 1 > 1) :
    (kcp.updatedReplicas ≠ kcp.replicas →
      (update_nodegroup_status infra ng).1.status = "UPDATE_IN_PROGRESS") ∧
    (kcp.updatedReplicas = kcp.replicas → kcp.ready = true →
      (update_nodegroup_status infra ng).1.status = "UPDATE_COMPLETE") ∧
    (kcp.updatedReplicas = kcp.replicas → kcp.ready = false →
      (update_nodegroup_status infra ng).1.status = ng.status) := by
  refine ⟨?_, ?_, ?_⟩
  · intro hne
    simp [update_nodegroup_status, hrole, hkcp, resolve_control_plane,
      hgen, hne]
  · intro heq hready
    simp [update_nodegroup_status, hrole, hkcp, resolve_control_plane,
      hgen, heq, hready]
  · intro heq hready
    simp [update_nodegroup_status, hrole, hkcp, resolve_control_plane,
      hgen, heq, hready]

/-- C5 witness: a concrete CREATE_IN_PROGRESS control-plane node group with
`observedGeneration = 3` and a ready resource resolves to
`UPDATE_COMPLETE`. -/
theorem cp_generation_override_witness :
    (update_nodegroup_status w5Infra w5Ng).1.status = "UPDATE_COMPLETE" :=
  (cp_generation_override w5Infra w5Ng w5Kcp rfl rfl
    (by decide)).2.1 rfl rfl

/-- C8: when the control-plane resource reports neither `updatedReplicas`
nor `replicas`, the two absent fields compare equal, so with `ready = true`
the status is set to `{action}_COMPLETE` despite no replica information;
with `ready = false` the status field is left unchanged. -/
theorem cp_absent_replicas (infra : Infra) (ng : NodeGroup)
    (kcp : KubeadmControlPlane)
    (hrole : ng.role = "master") (hkcp : infra.kcp = some kcp)
    (hu : kcp.updatedReplicas = none) (hr : kcp.replicas = none) :
    (kcp.ready = true →
      (update_nodegroup_status infra ng).1.status =
        (if kcp.observedGeneration.getD 1 > 1 then "UPDATE"
          else actionOf ng.status) ++ "_COMPLETE") ∧
    (kcp.ready = false →
      (update_nodegroup_status infra ng).1.status = ng.status) := by
  constructor <;> intro hready <;>
    simp [update_nodegroup_status, hrole, hkcp, resolve_control_plane,
      hu, hr, hready]

/-- C8 witness: a concrete CREATE_IN_PROGRESS control-plane node group
whose resource has no replica fields but `ready = true` resolves to
`CREATE_COMPLETE`. -/
theorem cp_absent_replicas_witness :
    (update_nodegroup_status w8Infra c5Ng).1.status =
      (if w8Kcp.observedGeneration.getD 1 > 1 then "UPDATE"
        else actionOf c5Ng.status) ++ "_COMPLETE" :=
  (cp_absent_replicas w8Infra c5Ng w8Kcp rfl rfl rfl rfl).1 rfl

/-- C1: for a cluster in CREATE_IN_PROGRESS or UPDATE_IN_PROGRESS, the pass
sets the cluster status to UPDATE_COMPLETE only if every resolved node
group status ends in `_COMPLETE` and the three conditions
ControlPlaneReady, InfrastructureReady and Ready are all true; if any node
group is not `_COMPLETE` or any condition is not true, the pass leaves the
cluster status unchanged. -/
theorem update_complete_gate (infra : Infra) (c : MagnumCluster)
    (h : c.status = "CREATE_IN_PROGRESS" ∨
      c.status = "UPDATE_IN_PROGRESS") :
    ((update_cluster_status infra c).1.status = "UPDATE_COMPLETE" →
      infra_conditions_ok infra = true ∧
      (resolved_node_groups infra c).all
        (fun ng => strEndsWith ng.status "_COMPLETE") = true) ∧
    ((infra_conditions_ok infra = false ∨
        (resolved_node_groups infra c).all
          (fun ng => strEndsWith ng.status "_COMPLETE") = false) →
      (update_cluster_status infra c).1.status = c.status) := by
  have hm := in_progress_status_master infra c h
  constructor
  · intro hU
    rw [hm] at hU
    by_cases hC : infra_conditions_ok infra = true ∧
        infra.ccmNotReady = false ∧ infra.csiNotReady = false ∧
        (resolved_node_groups infra c).all
          (fun ng => strEndsWith ng.status "_COMPLETE") = true ∧
        c.status = "UPDATE_IN_PROGRESS"
    · exact ⟨hC.1, hC.2.2.2.1⟩
    · rw [if_neg hC] at hU
      rcases h with h | h <;> rw [h] at hU <;> exact absurd hU (by decide)
  · intro hbad
    have hnC : ¬ (infra_conditions_ok infra = true ∧
        infra.ccmNotReady = false ∧ infra.csiNotReady = false ∧
        (resolved_node_groups infra c).all
          (fun ng => strEndsWith ng.status "_COMPLETE") = true ∧
        c.status = "UPDATE_IN_PROGRESS") := by
      rintro ⟨h1, _, _, h4, _⟩
      rcases hbad with hb | hb
      · rw [h1] at hb; exact absurd hb (by decide)
      · rw [h4] at hb; exact absurd hb (by decide)
    rw [hm, if_neg hnC]

/-- C1 witness: with the Ready condition false, a concrete
UPDATE_IN_PROGRESS cluster keeps its status. -/
theorem update_complete_gate_witness :
    (update_cluster_status wInfraNotReady wClUpdate).1.status =
      "UPDATE_IN_PROGRESS" :=
  (update_complete_gate wInfraNotReady wClUpdate (Or.inr rfl)).2
    (Or.inl rfl)

/-- C7: a cluster in CREATE_IN_PROGRESS is never moved to CREATE_COMPLETE:
its status field stays CREATE_IN_PROGRESS even when every node group is
complete and all conditions hold — in which case the record is still
persisted (a save is issued). -/
theorem create_in_progress_non_transition (infra : Infra)
    (c : MagnumCluster) (h : c.status = "CREATE_IN_PROGRESS") :
    (update_cluster_status infra c).1.status = "CREATE_IN_PROGRESS" ∧
    (infra_conditions_ok infra = true → infra.ccmNotReady = false →
      infra.csiNotReady = false →
      (resolved_node_groups infra c).all
        (fun ng => strEndsWith ng.status "_COMPLETE") = true →
      Effect.saveCluster ∈ (update_cluster_status infra c).2) := by
  constructor
  · have hm := in_progress_status_master infra c (Or.inl h)
    have hnC : ¬ (infra_conditions_ok infra = true ∧
        infra.ccmNotReady = false ∧ infra.csiNotReady = false ∧
        (resolved_node_groups infra c).all
          (fun ng => strEndsWith ng.status "_COMPLETE") = true ∧
        c.status = "UPDATE_IN_PROGRESS") := by
      rintro ⟨_, _, _, _, h5⟩
      rw [h] at h5
      exact absurd h5 (by decide)
    rw [hm, if_neg hnC]
    exact h
  · intro hcond hccm hcsi hall
    have hmem := in_progress_pass_saves infra (post_resolution infra c)
      hcond hccm hcsi (by rw [post_resolution_nodegroups]; exact hall)
    rw [update_cluster_status_snd,
      in_progress_branch_of_in_progress infra (post_resolution infra c)
        (by rw [post_resolution_status]; exact Or.inl h)]
    simp only [List.mem_append]
    exact Or.inl (Or.inr hmem)

/-- C7 witness: at a fully-converged concrete state, the cluster status
stays CREATE_IN_PROGRESS and the record is still saved. -/
theorem create_in_progress_non_transition_witness :
    (update_cluster_status wInfraReady wClCreate).1.status =
      "CREATE_IN_PROGRESS" ∧
    Effect.saveCluster ∈ (update_cluster_status wInfraReady wClCreate).2 :=
  ⟨(create_in_progress_non_transition wInfraReady wClCreate rfl).1,
    (create_in_progress_non_transition wInfraReady wClCreate rfl).2
      rfl rfl rfl (by decide)⟩

/-- C9: for a cluster whose status is none of CREATE_IN_PROGRESS,
UPDATE_IN_PROGRESS and DELETE_IN_PROGRESS, the pass still resolves every
node group (with the resolvers' own saves), but leaves the cluster
record's status, api_address and coe_version unchanged and issues only
node-group-local effects — no add-on upgrade, credential deletion, secret
deletion or cluster save. -/
theorem frame_other_status (infra : Infra) (c : MagnumCluster)
    (h1 : c.status ≠ "CREATE_IN_PROGRESS")
    (h2 : c.status ≠ "UPDATE_IN_PROGRESS")
    (h3 : c.status ≠ "DELETE_IN_PROGRESS") :
    (update_cluster_status infra c).1 =
      { c with nodegroups := resolved_node_groups infra c } ∧
    (update_cluster_status infra c).2 = node_group_effects infra c ∧
    (∀ e ∈ (update_cluster_status infra c).2,
      e.isNodeGroupLocal = true) := by
  have hb1 : in_progress_branch infra (post_resolution infra c) =
      (post_resolution infra c, []) :=
    in_progress_branch_of_other _ _ (by
      rw [post_resolution_status]
      rintro (hx | hx)
      exacts [h1 hx, h2 hx])
  have hb2 : delete_branch infra (post_resolution infra c) =
      (post_resolution infra c, []) :=
    delete_branch_of_other _ _ (by rw [post_resolution_status]; exact h3)
  refine ⟨?_, ?_, ?_⟩
  · simp only [update_cluster_status_fst, hb1, hb2]
    rfl
  · simp only [update_cluster_status_snd, hb1, hb2]
    simp
  · intro e he
    rw [update_cluster_status_snd, hb1] at he
    simp only [hb2] at he
    simp only [List.append_nil] at he
    exact node_group_effects_local infra c e he

/-- C9 witness: a concrete CREATE_FAILED cluster comes back with only its
node groups re-resolved and only their effects issued. -/
theorem frame_other_status_witness :
    (update_cluster_status wInfraReady wClFailed).1 =
      { wClFailed with
        nodegroups := resolved_node_groups wInfraReady wClFailed } ∧
    (update_cluster_status wInfraReady wClFailed).2 =
      node_group_effects wInfraReady wClFailed :=
  ⟨(frame_other_status wInfraReady wClFailed (by decide) (by decide)
      (by decide)).1,
    (frame_other_status wInfraReady wClFailed (by decide) (by decide)
      (by decide)).2.1⟩

/-- C10: while the completeness check scans resolved node groups in order,
the destroy effects issued are exactly the `DELETE_COMPLETE` node groups in
the longest all-`_COMPLETE` prefix — so a node group is destroyed exactly
when every node group before it ends in `_COMPLETE` — and when some node
group does not end in `_COMPLETE`, the pass aborts without a cluster
status transition while the destroys already issued stand. -/
theorem scan_partial_destroy (infra : Infra) (c : MagnumCluster)
    (h : c.status = "CREATE_IN_PROGRESS" ∨
      c.status = "UPDATE_IN_PROGRESS")
    (hcond : infra_conditions_ok infra = true)
    (hccm : infra.ccmNotReady = false)
    (hcsi : infra.csiNotReady = false) :
    (update_cluster_status infra c).2.filter Effect.isDestroy =
      (((resolved_node_groups infra c).takeWhile
          (fun ng => strEndsWith ng.status "_COMPLETE")).filter
        (fun ng => ng.status == "DELETE_COMPLETE")).map
        (fun ng => Effect.destroyNodeGroup ng.name) ∧
    ((resolved_node_groups infra c).all
        (fun ng => strEndsWith ng.status "_COMPLETE") = false →
      (update_cluster_status infra c).1.status = c.status) := by
  constructor
  · rw [update_cluster_status_snd,
      delete_branch_of_other infra _
        (in_progress_branch_result_not_delete infra c h),
      in_progress_branch_of_in_progress infra (post_resolution infra c)
        (by rw [post_resolution_status]; exact h),
      List.filter_append, List.filter_append,
      node_group_effects_no_destroy,
      in_progress_pass_destroys infra (post_resolution infra c)
        hcond hccm hcsi,
      post_resolution_nodegroups, scan_node_groups_effects]
    simp
  · intro hfail
    have hm := in_progress_status_master infra c h
    rw [hm, if_neg ?_]
    rintro ⟨_, _, _, h4, _⟩
    rw [h4] at hfail
    exact absurd hfail (by decide)

/-- C10 witness: at a concrete state where the first node group is
DELETE_COMPLETE and the second is not complete, exactly the first is
destroyed and the cluster status does not transition. -/
theorem scan_partial_destroy_witness :
    (update_cluster_status w10Infra w10Cl).2.filter Effect.isDestroy =
      [Effect.destroyNodeGroup "pool-del"] ∧
    (update_cluster_status w10Infra w10Cl).1.status =
      "UPDATE_IN_PROGRESS" := by
  have h := scan_partial_destroy w10Infra w10Cl (Or.inr rfl) rfl rfl rfl
  exact ⟨by rw [h.1]; decide, h.2 (by decide)⟩

theorem delete_pass_still_exists (infra : Infra) (c : MagnumCluster)
    (capi : CapiCluster) (hcapi : infra.capiCluster = some capi)
    (hex : capi.stillExists = true) :
    delete_pass infra c = (c, []) := by
  unfold delete_pass
  rw [hcapi]
  simp [hex]

theorem delete_pass_gone (infra : Infra) (c : MagnumCluster)
    (hno : ∀ capi, infra.capiCluster = some capi →
      capi.stillExists = false) :
    delete_pass infra c =
      ({ c with status := "DELETE_COMPLETE" },
        (if infra.credentialFound then [Effect.deleteAppCredential]
          else []) ++
          deletedSecretNames.map Effect.deleteSecret ++
          [Effect.saveCluster]) := by
  unfold delete_pass
  cases hc : infra.capiCluster with
  | none => simp
  | some capi => simp [hno capi hc]

/-- C6: for a cluster in DELETE_IN_PROGRESS — if the infrastructure cluster
resource still exists, the pass returns with the cluster status unchanged
and no cluster-level effect; if it is gone, the application credential is
deleted when present (not-found swallowed: the pass continues either way),
the cloud-config secret and the four certificate-authority secrets are all
deleted, and the status is set to DELETE_COMPLETE and persisted. -/
theorem delete_in_progress_behavior (infra : Infra) (c : MagnumCluster)
    (h : c.status = "DELETE_IN_PROGRESS") :
    (∀ capi, infra.capiCluster = some capi → capi.stillExists = true →
      (update_cluster_status infra c).1.status = c.status ∧
      (update_cluster_status infra c).2 = node_group_effects infra c) ∧
    ((∀ capi, infra.capiCluster = some capi →
        capi.stillExists = false) →
      (update_cluster_status infra c).1.status = "DELETE_COMPLETE" ∧
      (update_cluster_status infra c).2 =
        node_group_effects infra c ++
          ((if infra.credentialFound then [Effect.deleteAppCredential]
            else []) ++
            deletedSecretNames.map Effect.deleteSecret ++
            [Effect.saveCluster])) := by
  have hb1 : in_progress_branch infra (post_resolution infra c) =
      (post_resolution infra c, []) :=
    in_progress_branch_of_other _ _ (by
      rw [post_resolution_status, h]
      rintro (hx | hx) <;> exact absurd hx (by decide))
  have hdb : delete_branch infra (post_resolution infra c) =
      delete_pass infra (post_resolution infra c) := by
    unfold delete_branch
    rw [if_pos (by rw [post_resolution_status]; exact h)]
  constructor
  · intro capi hcapi hex
    have hdp := delete_pass_still_exists infra (post_resolution infra c)
      capi hcapi hex
    constructor
    · simp only [update_cluster_status_fst, hb1, hdb, hdp]
      exact post_resolution_status infra c
    · simp only [update_cluster_status_snd, hb1, hdb, hdp]
      simp
  · intro hno
    have hdp := delete_pass_gone infra (post_resolution infra c) hno
    constructor
    · simp only [update_cluster_status_fst, hb1, hdb, hdp]
    · simp only [update_cluster_status_snd, hb1, hdb, hdp]
      simp

/-- C6 witness: at a concrete DELETE_IN_PROGRESS cluster with the infra
resource absent and the credential already deleted, the pass swallows the
missing credential, deletes the five secrets, and completes the delete. -/
theorem delete_in_progress_behavior_witness :
    (update_cluster_status w6Infra w6Cl).1.status = "DELETE_COMPLETE" ∧
    (update_cluster_status w6Infra w6Cl).2 =
      node_group_effects w6Infra w6Cl ++
        ((if w6Infra.credentialFound then [Effect.deleteAppCredential]
          else []) ++
          deletedSecretNames.map Effect.deleteSecret ++
          [Effect.saveCluster]) :=
  (delete_in_progress_behavior w6Infra w6Cl rfl).2
    (fun capi hc => by cases hc)

end MagnumClusterApi
